import Mathlib

/-!
Verification development for two components of the repository:

* `src/components/dashboard/sections/poopee-crush/game/EnhancedGameBoard.tsx`
  — a pure presentational renderer for a match-3 board, embedded below in
  namespace `GameBoard`;
* `src/components/admin/sections/user-management/useUserManagement.ts`
  — an admin hook fetching and merging user records and exposing four
  mutations, embedded below in namespace `UserMgmt`.

The embedding is shallow: each TypeScript function becomes a Lean function
over explicit inputs, and the effectful parts (network calls, cache
invalidation, toast notifications) return an explicit list of effects so
that claims about "which calls are issued" become statements about traces.
-/

namespace GameBoard

/-- Tile kinds, from the `TileType` enum used by `EnhancedGameBoard.tsx`
(the enum's own file is not part of the sources; its constructors are those
consumed by `getTileEmoji`/`getTileClassName`). -/
inductive TileType where
  | POOP
  | TOILET
  | TOILET_PAPER
  | FART
  | BANANA
  | BELL
  | STRIPED_HORIZONTAL
  | STRIPED_VERTICAL
  | WRAPPED
  | COLOR_BOMB
  | BLOCKED
  | EMPTY
deriving DecidableEq, Repr

/-- A board coordinate, as the `{row, col}` objects of the source. -/
structure Pos where
  row : Nat
  col : Nat
deriving DecidableEq, Repr

/-- An animation event, from the `AnimationEvent` usage in
`EnhancedGameBoard.tsx`: an id, a kind string (`'match'`, `'drop'`,
`'invalid'`, `'cascade'`, ...), an optional affected-cell list (`anim.tiles`
may be absent), and an optional cascade multiplier. -/
structure AnimationEvent where
  id : Nat
  type : String
  tiles : Option (List Pos)
  cascadeMultiplier : Option Float

/-- `getTileEmoji` (source lines 24-40): the glyph for each tile kind. -/
def getTileEmoji (tile : TileType) : String :=
  match tile with
  | TileType.POOP => "💩"
  | TileType.TOILET => "🚽"
  | TileType.TOILET_PAPER => "🧻"
  | TileType.FART => "💨"
  | TileType.BANANA => "🍌"
  | TileType.BELL => "🔔"
  | TileType.STRIPED_HORIZONTAL => "💩⚡"
  | TileType.STRIPED_VERTICAL => "💩⬆️"
  | TileType.WRAPPED => "💩💥"
  | TileType.COLOR_BOMB => "💩🌈"
  | TileType.BLOCKED => "🚫"
  | TileType.EMPTY => ""

/-- The condition of line 49: the cell is the selected tile
(`selectedTile && selectedTile.row === row && selectedTile.col === col`). -/
def isSelectedCell (selectedTile : Option Pos) (row col : Nat) : Bool :=
  match selectedTile with
  | some s => s.row == row && s.col == col
  | none => false

/-- The condition of line 51: some hint tile has this cell's coordinates. -/
def isHintedCell (hintTiles : List Pos) (row col : Nat) : Bool :=
  hintTiles.any (fun hint => hint.row == row && hint.col == col)

/-- The mode-dependent size/spacing chrome of `getTileClassName`
(lines 44-47): the template prefix built from `baseSize` and `textSize`. -/
def sizeChrome (isMobile : Bool) : String :=
  (if isMobile then "w-10 h-10" else "w-12 h-12") ++
    " flex items-center justify-center " ++
    (if isMobile then "text-xl" else "text-2xl") ++
    " rounded-lg border-2 cursor-pointer transition-all duration-200 "

/-- The if/else-if chain of `getTileClassName` (lines 49-59): the base
visual state classes, selected first, then hinted, blocked, empty,
ordinary. -/
def tileBaseStateClasses (selectedTile : Option Pos) (hintTiles : List Pos)
    (row col : Nat) (tile : TileType) : String :=
  if isSelectedCell selectedTile row col then
    "border-yellow-400 bg-yellow-900/50 shadow-lg shadow-yellow-500/50 "
  else if isHintedCell hintTiles row col then
    "border-green-400 bg-green-900/30 animate-pulse "
  else if tile == TileType.BLOCKED then
    "border-gray-600 bg-gray-800 cursor-not-allowed "
  else if tile == TileType.EMPTY then
    "border-gray-700 bg-gray-900/30 cursor-default "
  else
    "border-gray-600 bg-gray-800/50 hover:bg-gray-700/50 hover:border-gray-500 "

/-- The special-tile accent of `getTileClassName` (lines 62-68). -/
def specialTileClasses (tile : TileType) : String :=
  if tile == TileType.STRIPED_HORIZONTAL || tile == TileType.STRIPED_VERTICAL then
    "shadow-lg shadow-blue-500/30 "
  else if tile == TileType.WRAPPED then
    "shadow-lg shadow-purple-500/30 "
  else if tile == TileType.COLOR_BOMB then
    "shadow-lg shadow-rainbow animate-pulse "
  else
    ""

/-- `getTileClassName` (lines 42-71): size chrome, then base visual state,
then special-tile accent, appended in source order. -/
def getTileClassName (isMobile : Bool) (selectedTile : Option Pos)
    (hintTiles : List Pos) (row col : Nat) (tile : TileType) : String :=
  sizeChrome isMobile ++
    (tileBaseStateClasses selectedTile hintTiles row col tile ++
      specialTileClasses tile)

/-- `handleTileClick` (lines 73-83), given the tile found at
`board[row][col]`: blocked and empty tiles swallow the click (no call to
`onTileClick`), every other tile forwards `(row, col)` unchanged. -/
def handleTileClick (tile : TileType) (row col : Nat) : Option (Nat × Nat) :=
  if tile == TileType.BLOCKED || tile == TileType.EMPTY then
    none
  else
    some (row, col)

/-- The relevance test of `getAnimationClasses` (lines 89-92): the event
has a tile list and some listed tile is this cell. -/
def coversCell (anim : AnimationEvent) (row col : Nat) : Bool :=
  match anim.tiles with
  | none => false
  | some tiles => tiles.any (fun tile => tile.row == row && tile.col == col)

/-- `getAnimationClasses` (lines 86-109): keep the events covering the
cell; if any, the last one in list order picks the class by its kind. -/
def getAnimationClasses (animations : List AnimationEvent) (row col : Nat) : String :=
  if animations.isEmpty then ""
  else
    let relevantAnimations := animations.filter (fun anim => coversCell anim row col)
    if relevantAnimations.isEmpty then ""
    else
      match relevantAnimations.getLast? with
      | none => ""
      | some latestAnimation =>
        if latestAnimation.type = "match" then "animate-ping "
        else if latestAnimation.type = "drop" then "animate-bounce "
        else if latestAnimation.type = "invalid" then "animate-pulse "
        else ""

/-- What the component emits for one grid cell (lines 131-138): its
coordinates, the combined class string, the glyph, and the coordinates its
click handler would forward (none when swallowed). -/
structure CellView where
  row : Nat
  col : Nat
  className : String
  glyph : String
  click : Option (Nat × Nat)
deriving DecidableEq, Repr

/-- Line 133 for one cell: `getTileClassName` and `getAnimationClasses`
joined by a space, plus glyph and click handler. -/
def renderCell (isMobile : Bool) (selectedTile : Option Pos) (hintTiles : List Pos)
    (animations : List AnimationEvent) (row col : Nat) (tile : TileType) : CellView :=
  { row := row
    col := col
    className := getTileClassName isMobile selectedTile hintTiles row col tile ++
      (" " ++ getAnimationClasses animations row col)
    glyph := getTileEmoji tile
    click := handleTileClick tile row col }

/-- `gridGap` (line 123). -/
def gridGap (isMobile : Bool) : String :=
  if isMobile then "gap-2" else "gap-1"

/-- `containerPadding` (line 124). -/
def containerPadding (isMobile : Bool) : String :=
  if isMobile then "p-2" else "p-4"

/-- The renderer's result: either the loading placeholder of lines 112-120
or the grid of lines 126-141 with its per-cell views and the two
mode-dependent spacing constants. -/
inductive RenderResult where
  | loading
  | grid (cells : List CellView) (gap : String) (pad : String)
deriving DecidableEq, Repr

/-- `EnhancedGameBoard` (lines 15-156): the degenerate-board guard of line
112 (`!board || board.length === 0 || !board[0] || board[0].length === 0`)
returns the loading placeholder; otherwise every cell of the row-major
traversal of lines 129-140 is rendered. A null board is `none`. -/
def EnhancedGameBoard (isMobile : Bool) (board : Option (List (List TileType)))
    (selectedTile : Option Pos) (hintTiles : List Pos)
    (animations : List AnimationEvent) : RenderResult :=
  match board with
  | none => RenderResult.loading
  | some b =>
    if b.isEmpty then RenderResult.loading
    else
      match b.head? with
      | none => RenderResult.loading
      | some firstRow =>
        if firstRow.isEmpty then RenderResult.loading
        else
          RenderResult.grid
            (b.enum.flatMap (fun rowPair =>
              rowPair.2.enum.map (fun colPair =>
                renderCell isMobile selectedTile hintTiles animations
                  rowPair.1 colPair.1 colPair.2)))
            (gridGap isMobile) (containerPadding isMobile)

end GameBoard

namespace GameBoard

/-- C6: among the animation events covering a cell, only the last one in
list order determines the cell's animation class, whatever events precede
it: match gives the flash class, drop the bounce class, invalid the pulse
class, and any other kind (cascade included) no class. -/
theorem getAnimationClasses_last_covering_wins (pre post : List AnimationEvent)
    (a : AnimationEvent) (row col : Nat)
    (ha : coversCell a row col = true)
    (hpost : ∀ b ∈ post, coversCell b row col = false) :
    getAnimationClasses (pre ++ a :: post) row col =
      (if a.type = "match" then "animate-ping "
       else if a.type = "drop" then "animate-bounce "
       else if a.type = "invalid" then "animate-pulse "
       else "") := by
  have hpostnil : post.filter (fun anim => coversCell anim row col) = [] := by
    rw [List.filter_eq_nil_iff]
    intro b hb
    simp [hpost b hb]
  have hfilter : (pre ++ a :: post).filter (fun anim => coversCell anim row col)
      = pre.filter (fun anim => coversCell anim row col) ++ [a] := by
    rw [List.filter_append, List.filter_cons, hpostnil]
    simp [ha]
  have hne : (pre ++ a :: post).isEmpty = false := by simp
  unfold getAnimationClasses
  rw [hne, hfilter]
  simp [List.getLast?_concat]

/-- Witness for C6, on the spec's example: two events both covering cell
(2,3), an invalid then a match, give the cell only the match class. -/
theorem getAnimationClasses_last_covering_wins_witness :
    coversCell ⟨2, "match", some [⟨2, 3⟩], none⟩ 2 3 = true ∧
    getAnimationClasses
        ([⟨1, "invalid", some [⟨2, 3⟩], none⟩] ++
          (⟨2, "match", some [⟨2, 3⟩], none⟩ : AnimationEvent) :: []) 2 3
      = (if ("match" : String) = "match" then "animate-ping "
         else if ("match" : String) = "drop" then "animate-bounce "
         else if ("match" : String) = "invalid" then "animate-pulse "
         else "") :=
  ⟨rfl, getAnimationClasses_last_covering_wins
    [⟨1, "invalid", some [⟨2, 3⟩], none⟩] [] ⟨2, "match", some [⟨2, 3⟩], none⟩
    2 3 rfl (by simp)⟩

/-- C7: the base visual state of a cell is decided by the precedence
selected > hinted > blocked > empty > ordinary — a selected cell gets the
selected classes whatever else holds of it (hinted, blocked or empty
included), a non-selected hinted cell the hint classes whatever its tile
is, and only then does the tile decide blocked, empty or ordinary. -/
theorem getTileClassName_precedence (m : Bool) (sel : Option Pos)
    (hints : List Pos) (row col : Nat) (tile : TileType) :
    (isSelectedCell sel row col = true →
      getTileClassName m sel hints row col tile
        = sizeChrome m ++
            ("border-yellow-400 bg-yellow-900/50 shadow-lg shadow-yellow-500/50 "
              ++ specialTileClasses tile)) ∧
    (isSelectedCell sel row col = false → isHintedCell hints row col = true →
      getTileClassName m sel hints row col tile
        = sizeChrome m ++
            ("border-green-400 bg-green-900/30 animate-pulse "
              ++ specialTileClasses tile)) ∧
    (isSelectedCell sel row col = false → isHintedCell hints row col = false →
      tile = TileType.BLOCKED →
      getTileClassName m sel hints row col tile
        = sizeChrome m ++
            ("border-gray-600 bg-gray-800 cursor-not-allowed "
              ++ specialTileClasses tile)) ∧
    (isSelectedCell sel row col = false → isHintedCell hints row col = false →
      tile = TileType.EMPTY →
      getTileClassName m sel hints row col tile
        = sizeChrome m ++
            ("border-gray-700 bg-gray-900/30 cursor-default "
              ++ specialTileClasses tile)) ∧
    (isSelectedCell sel row col = false → isHintedCell hints row col = false →
      tile ≠ TileType.BLOCKED → tile ≠ TileType.EMPTY →
      getTileClassName m sel hints row col tile
        = sizeChrome m ++
            ("border-gray-600 bg-gray-800/50 hover:bg-gray-700/50 hover:border-gray-500 "
              ++ specialTileClasses tile)) := by
  refine ⟨?_, ?_, ?_, ?_, ?_⟩
  · intro h1
    simp [getTileClassName, tileBaseStateClasses, h1]
  · intro h1 h2
    simp [getTileClassName, tileBaseStateClasses, h1, h2]
  · intro h1 h2 h3
    subst h3
    simp [getTileClassName, tileBaseStateClasses, h1, h2]
  · intro h1 h2 h3
    subst h3
    simp [getTileClassName, tileBaseStateClasses, h1, h2]
  · intro h1 h2 h3 h4
    simp [getTileClassName, tileBaseStateClasses, h1, h2, h3, h4]

/-- Witness for C7: a cell that is both the selected cell and a hinted
cell, and whose tile is even blocked, still gets the selected classes. -/
theorem getTileClassName_precedence_witness :
    isSelectedCell (some ⟨1, 1⟩) 1 1 = true ∧
    getTileClassName false (some ⟨1, 1⟩) [⟨1, 1⟩] 1 1 TileType.BLOCKED
      = sizeChrome false ++
          ("border-yellow-400 bg-yellow-900/50 shadow-lg shadow-yellow-500/50 "
            ++ specialTileClasses TileType.BLOCKED) :=
  ⟨rfl, (getTileClassName_precedence false (some ⟨1, 1⟩) [⟨1, 1⟩] 1 1
    TileType.BLOCKED).1 rfl⟩

/-- C8: a null board, a board with zero rows, or a board whose first row
has zero length makes the renderer return the loading placeholder rather
than a grid. -/
theorem enhancedGameBoard_degenerate_loading (m : Bool)
    (board : Option (List (List TileType))) (sel : Option Pos)
    (hints : List Pos) (anims : List AnimationEvent)
    (h : board = none ∨ board = some [] ∨ ∃ rest, board = some ([] :: rest)) :
    EnhancedGameBoard m board sel hints anims = RenderResult.loading := by
  rcases h with h | h | ⟨rest, h⟩ <;> subst h <;> simp [EnhancedGameBoard]

/-- Witness for C8 at the null board. -/
theorem enhancedGameBoard_degenerate_loading_witness :
    EnhancedGameBoard false none none [] [] = RenderResult.loading :=
  enhancedGameBoard_degenerate_loading false none none [] [] (Or.inl rfl)

/-- Helper: maps of one list are pointwise `Forall₂`-related when the two
functions are related on every element. -/
theorem forall2_map_of_mem {α β γ : Type} (R : β → γ → Prop) (f : α → β)
    (g : α → γ) : ∀ l : List α, (∀ x ∈ l, R (f x) (g x)) →
    List.Forall₂ R (l.map f) (l.map g) := by
  intro l
  induction l with
  | nil => intro _; exact List.Forall₂.nil
  | cons a t ih =>
    intro h
    exact List.Forall₂.cons (h a (by simp)) (ih (fun x hx => h x (by simp [hx])))

/-- Helper: flat maps of one list are `Forall₂`-related when the two
functions give related blocks on every element. -/
theorem forall2_flatMap_of_mem {α β γ : Type} (R : β → γ → Prop)
    (f : α → List β) (g : α → List γ) : ∀ l : List α,
    (∀ x ∈ l, List.Forall₂ R (f x) (g x)) →
    List.Forall₂ R (l.flatMap f) (l.flatMap g) := by
  intro l
  induction l with
  | nil => intro _; simp only [List.flatMap_nil]; exact List.Forall₂.nil
  | cons a t ih =>
    intro h
    rw [List.flatMap_cons, List.flatMap_cons]
    exact List.rel_append (h a (by simp)) (ih (fun x hx => h x (by simp [hx])))

/-- Helper: a cell's full class string is the mode-dependent size chrome
followed by a mode-independent remainder. -/
theorem renderCell_className (m : Bool) (sel : Option Pos) (hints : List Pos)
    (anims : List AnimationEvent) (row col : Nat) (tile : TileType) :
    (renderCell m sel hints anims row col tile).className
      = sizeChrome m ++
          ((tileBaseStateClasses sel hints row col tile ++ specialTileClasses tile)
            ++ (" " ++ getAnimationClasses anims row col)) := by
  simp [renderCell, getTileClassName, String.append_assoc]

/-- C9: two runs of the renderer that differ only in the presentation-mode
boolean agree on everything but size/spacing constants: both load, or both
render grids whose cells pairwise share coordinates, glyph and forwarded
click, and whose class strings differ only in the size chrome. -/
theorem enhancedGameBoard_mode_agnostic (m₁ m₂ : Bool)
    (board : Option (List (List TileType))) (sel : Option Pos)
    (hints : List Pos) (anims : List AnimationEvent) :
    (EnhancedGameBoard m₁ board sel hints anims = RenderResult.loading ∧
      EnhancedGameBoard m₂ board sel hints anims = RenderResult.loading) ∨
    (∃ cells₁ cells₂,
      EnhancedGameBoard m₁ board sel hints anims
        = RenderResult.grid cells₁ (gridGap m₁) (containerPadding m₁) ∧
      EnhancedGameBoard m₂ board sel hints anims
        = RenderResult.grid cells₂ (gridGap m₂) (containerPadding m₂) ∧
      List.Forall₂ (fun c₁ c₂ =>
        c₁.row = c₂.row ∧ c₁.col = c₂.col ∧ c₁.glyph = c₂.glyph ∧
        c₁.click = c₂.click ∧
        ∃ s, c₁.className = sizeChrome m₁ ++ s ∧ c₂.className = sizeChrome m₂ ++ s)
        cells₁ cells₂) := by
  rcases board with _ | b
  · exact Or.inl ⟨rfl, rfl⟩
  · rcases b with _ | ⟨r0, rs⟩
    · exact Or.inl ⟨by simp [EnhancedGameBoard], by simp [EnhancedGameBoard]⟩
    · by_cases hr : r0.isEmpty = true
      · exact Or.inl ⟨by simp [EnhancedGameBoard, hr], by simp [EnhancedGameBoard, hr]⟩
      · refine Or.inr
          ⟨(r0 :: rs).enum.flatMap (fun rowPair =>
              rowPair.2.enum.map (fun colPair =>
                renderCell m₁ sel hints anims rowPair.1 colPair.1 colPair.2)),
            (r0 :: rs).enum.flatMap (fun rowPair =>
              rowPair.2.enum.map (fun colPair =>
                renderCell m₂ sel hints anims rowPair.1 colPair.1 colPair.2)),
            by simp [EnhancedGameBoard, hr], by simp [EnhancedGameBoard, hr], ?_⟩
        apply forall2_flatMap_of_mem
        intro rowPair _
        apply forall2_map_of_mem
        intro colPair _
        refine ⟨rfl, rfl, rfl, rfl,
          ⟨(tileBaseStateClasses sel hints rowPair.1 colPair.1 colPair.2
              ++ specialTileClasses colPair.2)
            ++ (" " ++ getAnimationClasses anims rowPair.1 colPair.1),
            renderCell_className m₁ sel hints anims rowPair.1 colPair.1 colPair.2,
            renderCell_className m₂ sel hints anims rowPair.1 colPair.1 colPair.2⟩⟩

end GameBoard

namespace UserMgmt

/-- A row of `profiles` as selected on line 26:
`id, username, full_name, created_at`. -/
structure Profile where
  id : String
  username : Option String
  full_name : Option String
  created_at : String
deriving DecidableEq, Repr

/-- A row of `user_roles` as selected on line 46: `user_id, role`. -/
structure RoleRow where
  user_id : String
  role : String
deriving DecidableEq, Repr

/-- A row of `user_credits` as selected on line 56: `user_id, balance`. -/
structure CreditRow where
  user_id : String
  balance : Int
deriving DecidableEq, Repr

/-- A row of `user_social_accounts` as selected on line 66. -/
structure SocialRow where
  user_id : String
  platform : String
  username : String
  verified : Bool
deriving DecidableEq, Repr

/-- A row of `user_wallets` as selected on line 76. -/
structure WalletRow where
  user_id : String
  blockchain : String
  wallet_address : String
  wallet_name : String
  is_primary : Bool
deriving DecidableEq, Repr

/-- A row of `user_bans` as selected on line 86:
`user_id, reason, banned_at, is_active`. -/
structure BanRow where
  user_id : String
  reason : String
  banned_at : String
  is_active : Bool
deriving DecidableEq, Repr

/-- One merged directory record, as assembled on lines 95-102: the profile
spread plus the four satellite sublists and the optional ban record. -/
structure MergedUser where
  profile : Profile
  user_roles : List RoleRow
  user_credits : List CreditRow
  social_accounts : List SocialRow
  wallets : List WalletRow
  ban_info : Option BanRow
deriving DecidableEq, Repr

/-- The merge of lines 95-102. Each satellite argument is the `data` of the
corresponding query: `none` models a null result (the query failed), in
which case the optional-chaining `?.filter(...) || []` yields `[]` and
`?.find(...) || null` yields null. -/
def mergeUsers (profiles : List Profile)
    (userRoles : Option (List RoleRow))
    (userCredits : Option (List CreditRow))
    (socialAccounts : Option (List SocialRow))
    (userWallets : Option (List WalletRow))
    (userBans : Option (List BanRow)) : List MergedUser :=
  profiles.map (fun profile =>
    { profile := profile
      user_roles :=
        match userRoles with
        | some rows => rows.filter (fun role => role.user_id == profile.id)
        | none => []
      user_credits :=
        match userCredits with
        | some rows => rows.filter (fun credit => credit.user_id == profile.id)
        | none => []
      social_accounts :=
        match socialAccounts with
        | some rows => rows.filter (fun social => social.user_id == profile.id)
        | none => []
      wallets :=
        match userWallets with
        | some rows => rows.filter (fun wallet => wallet.user_id == profile.id)
        | none => []
      ban_info :=
        match userBans with
        | some rows => rows.find? (fun ban => ban.user_id == profile.id)
        | none => none })

/-- A database error surfaced by a query (`error` with its `message`). -/
structure DbError where
  message : String
deriving DecidableEq, Repr

/-- The error thrown out of `queryFn`: either the missing-session error of
line 20 or the propagated profile-query error of line 36. -/
inductive FetchError where
  | noSession
  | profileFetch (e : DbError)
deriving DecidableEq, Repr

/-- The network calls `queryFn` can issue against the remote store. -/
inductive QueryCall where
  | profilesQ
  | rolesQ
  | creditsQ
  | socialQ
  | walletsQ
  | bansQ
deriving DecidableEq, Repr

/-- The environment of one directory fetch: whether `getSession` returns a
session, the outcome of the profile query (`error` aborts, otherwise its
possibly-null `data`), and the possibly-null `data` of each of the five
satellite queries (`none` models a failed or null result; the bans query
result is server-filtered to `is_active = true` rows). -/
structure FetchEnv where
  session : Bool
  profiles : Except DbError (Option (List Profile))
  roles : Option (List RoleRow)
  credits : Option (List CreditRow)
  socials : Option (List SocialRow)
  wallets : Option (List WalletRow)
  bans : Option (List BanRow)

/-- `queryFn` (lines 15-103), with an explicit trace of the database
queries issued: no session throws (line 19-21) with nothing issued; a
profile error throws (lines 34-37); a null or empty profile list returns
`[]` at line 39 with no satellite query issued; otherwise the five
satellite queries run and the merge of lines 95-102 is returned. -/
def queryFn (env : FetchEnv) : Except FetchError (List MergedUser) × List QueryCall :=
  if env.session = false then
    (Except.error FetchError.noSession, [])
  else
    match env.profiles with
    | Except.error e => (Except.error (FetchError.profileFetch e), [QueryCall.profilesQ])
    | Except.ok profilesData =>
      match profilesData with
      | none => (Except.ok [], [QueryCall.profilesQ])
      | some profiles =>
        if profiles.isEmpty then
          (Except.ok [], [QueryCall.profilesQ])
        else
          (Except.ok (mergeUsers profiles env.roles env.credits env.socials
              env.wallets env.bans),
            [QueryCall.profilesQ, QueryCall.rolesQ, QueryCall.creditsQ,
              QueryCall.socialQ, QueryCall.walletsQ, QueryCall.bansQ])

/-- The cache key of the directory query (line 14):
`['adminUsers', searchTerm]`. -/
def adminUsersKey (searchTerm : String) : List String :=
  ["adminUsers", searchTerm]

/-- Models the query-client collaborator: `invalidateQueries` with key `k`
marks stale every cached entry whose key extends `k`, so invalidating
`['adminUsers']` hits `['adminUsers', term]` for every term. -/
def invalidationMatches (invalidatedKey cachedKey : List String) : Bool :=
  List.isPrefixOf invalidatedKey cachedKey

/-- A toast notification as issued by the mutation callbacks: title,
description, and whether the destructive variant was used. -/
structure Toast where
  title : String
  description : String
  destructive : Bool
deriving DecidableEq, Repr

/-- The observable effects of running a mutation: the remote writes each
`mutationFn` can issue, the cache invalidation of the `onSuccess`
callbacks, and the toast of `onSuccess`/`onError`. -/
inductive Effect where
  | upsertRole (user_id : String) (role : String)
  | deleteRole (user_id : String) (role : String)
  | insertBan (user_id : String) (banned_by : Option String) (reason : String) (is_active : Bool)
  | updateBanInactive (user_id : String)
  | invalidate (key : List String)
  | toast (t : Toast)
deriving DecidableEq, Repr

/-- The environment of one mutation call: whether `getSession` returns a
session, the hook's `user?.id` from `useUnifiedAuth`, and the error of the
single remote write when it fails (`none` = the write succeeds; the carried
`Option String` is the error's possibly-absent `message`). -/
structure MutEnv where
  session : Bool
  currentUser : Option String
  dbError : Option (Option String)

/-- The self-ban guard condition of line 187, `userId === user?.id`: when
no user is known, `user?.id` is undefined and the comparison with a string
target is false. -/
def isSelfBan (currentUser : Option String) (userId : String) : Bool :=
  match currentUser with
  | some uid => userId == uid
  | none => false

/-- `error.message || fallback` of the `onError` callbacks: the remote
message when present and non-empty, the fixed fallback otherwise. -/
def errorDescription (message : Option String) (fallback : String) : String :=
  match message with
  | some s => if s = "" then fallback else s
  | none => fallback

/-- `makeAdminMutation.mutationFn` (lines 108-124): session check, then
one upsert of `{user_id, role: 'admin'}`; a write error is rethrown. -/
def makeAdminMutationFn (env : MutEnv) (userId : String) :
    Except (Option String) Unit × List Effect :=
  if env.session = false then
    (Except.error (some "No authenticated session found"), [])
  else
    let calls := [Effect.upsertRole userId "admin"]
    match env.dbError with
    | some e => (Except.error e, calls)
    | none => (Except.ok (), calls)

/-- `removeAdminMutation.mutationFn` (lines 142-160): session check, then
one delete matching `(user_id, 'admin')`; a write error is rethrown. -/
def removeAdminMutationFn (env : MutEnv) (userId : String) :
    Except (Option String) Unit × List Effect :=
  if env.session = false then
    (Except.error (some "No authenticated session found"), [])
  else
    let calls := [Effect.deleteRole userId "admin"]
    match env.dbError with
    | some e => (Except.error e, calls)
    | none => (Except.ok (), calls)

/-- `banUserMutation.mutationFn` (lines 178-204): session check, then the
self-ban guard of lines 186-189 (throwing before any write), then one
insert of the ban record of lines 191-198 with `banned_by := user?.id` and
the `reason || 'No reason provided'` fallback; a write error is rethrown. -/
def banUserMutationFn (env : MutEnv) (userId reason : String) :
    Except (Option String) Unit × List Effect :=
  if env.session = false then
    (Except.error (some "No authenticated session found"), [])
  else if isSelfBan env.currentUser userId then
    (Except.error (some "You cannot ban yourself"), [])
  else
    let calls := [Effect.insertBan userId env.currentUser
      (if reason = "" then "No reason provided" else reason) true]
    match env.dbError with
    | some e => (Except.error e, calls)
    | none => (Except.ok (), calls)

/-- `unbanUserMutation.mutationFn` (lines 222-243): session check, then one
update deactivating the target's active ban rows; a write error is
rethrown. -/
def unbanUserMutationFn (env : MutEnv) (userId : String) :
    Except (Option String) Unit × List Effect :=
  if env.session = false then
    (Except.error (some "No authenticated session found"), [])
  else
    let calls := [Effect.updateBanInactive userId]
    match env.dbError with
    | some e => (Except.error e, calls)
    | none => (Except.ok (), calls)

/-- The shared `onSuccess`/`onError` shape of all four mutations
(e.g. lines 125-138): on success, invalidate `['adminUsers']` and toast the
success description; on error, toast `error.message || fallback` with the
destructive variant and do not invalidate. -/
def runMutation (result : Except (Option String) Unit × List Effect)
    (successDescription fallback : String) : List Effect :=
  match result with
  | (Except.ok _, calls) =>
    calls ++ [Effect.invalidate ["adminUsers"],
      Effect.toast { title := "Success", description := successDescription, destructive := false }]
  | (Except.error e, calls) =>
    calls ++ [Effect.toast
      { title := "Error", description := errorDescription e fallback, destructive := true }]

/-- `makeAdminMutation` end to end (lines 107-139). -/
def runMakeAdminMutation (env : MutEnv) (userId : String) : List Effect :=
  runMutation (makeAdminMutationFn env userId)
    "User has been made an admin." "Failed to make user admin."

/-- `removeAdminMutation` end to end (lines 141-175). -/
def runRemoveAdminMutation (env : MutEnv) (userId : String) : List Effect :=
  runMutation (removeAdminMutationFn env userId)
    "Admin privileges removed." "Failed to remove admin privileges."

/-- `banUserMutation` end to end (lines 177-219). -/
def runBanUserMutation (env : MutEnv) (userId reason : String) : List Effect :=
  runMutation (banUserMutationFn env userId reason)
    "User has been banned." "Failed to ban user."

/-- `unbanUserMutation` end to end (lines 221-259). -/
def runUnbanUserMutation (env : MutEnv) (userId : String) : List Effect :=
  runMutation (unbanUserMutationFn env userId)
    "User has been unbanned." "Failed to unban user."

end UserMgmt

namespace UserMgmt

/-- Helper: `find?` only depends on the predicate's values on the list. -/
theorem find?_ext {α : Type} (p q : α → Bool) :
    ∀ l : List α, (∀ x ∈ l, p x = q x) → l.find? p = l.find? q := by
  intro l
  induction l with
  | nil => intro _; rfl
  | cons a t ih =>
    intro h
    have ha : p a = q a := h a (by simp)
    rw [List.find?, List.find?, ← ha]
    cases hpa : p a with
    | true => rfl
    | false => exact ih (fun x hx => h x (by simp [hx]))

/-- C1: the merge returns one record per profile, in profile order, whose
satellite fields are exactly the matching sublists of the satellite results
(empty when none match) and whose `ban_info` is the first active matching
ban, or none. The hypothesis records that the bans query result only holds
active rows (it is issued with `eq('is_active', true)`). -/
theorem mergeUsers_one_record_per_profile (profiles : List Profile)
    (roles : List RoleRow) (credits : List CreditRow) (socials : List SocialRow)
    (wallets : List WalletRow) (bans : List BanRow)
    (hb : ∀ b ∈ bans, b.is_active = true) :
    mergeUsers profiles (some roles) (some credits) (some socials)
        (some wallets) (some bans)
      = profiles.map (fun p =>
          { profile := p
            user_roles := roles.filter (fun r => r.user_id == p.id)
            user_credits := credits.filter (fun c => c.user_id == p.id)
            social_accounts := socials.filter (fun s => s.user_id == p.id)
            wallets := wallets.filter (fun w => w.user_id == p.id)
            ban_info := bans.find? (fun b => b.user_id == p.id && b.is_active) }) := by
  unfold mergeUsers
  apply List.map_congr_left
  intro p _
  have hfind : bans.find? (fun b => b.user_id == p.id)
      = bans.find? (fun b => b.user_id == p.id && b.is_active) := by
    apply find?_ext
    intro b hbmem
    rw [hb b hbmem, Bool.and_true]
  simp only [hfind]

/-- Witness for C1, on the spec's own example (two profiles, one admin
role for the first, no bans). -/
theorem mergeUsers_one_record_per_profile_witness :
    (∀ b ∈ ([] : List BanRow), b.is_active = true) ∧
    mergeUsers [⟨"1", none, none, "t1"⟩, ⟨"2", none, none, "t2"⟩]
        (some [⟨"1", "admin"⟩]) (some []) (some []) (some []) (some [])
      = [⟨"1", none, none, "t1"⟩, ⟨"2", none, none, "t2"⟩].map (fun p =>
          { profile := p
            user_roles := [⟨"1", "admin"⟩].filter (fun r => r.user_id == p.id)
            user_credits := [].filter (fun c => c.user_id == p.id)
            social_accounts := [].filter (fun s => s.user_id == p.id)
            wallets := [].filter (fun w => w.user_id == p.id)
            ban_info := [].find? (fun b => b.user_id == p.id && b.is_active) }) :=
  ⟨by simp,
    mergeUsers_one_record_per_profile _ [⟨"1", "admin"⟩] [] [] [] [] (by simp)⟩

/-- Helper: a null roles result merges exactly like an empty one. -/
theorem mergeUsers_roles_none (ps : List Profile) (c) (s) (w) (b) :
    mergeUsers ps none c s w b = mergeUsers ps (some []) c s w b := by
  unfold mergeUsers
  apply List.map_congr_left
  intro p _
  simp

/-- Helper: a null credits result merges exactly like an empty one. -/
theorem mergeUsers_credits_none (ps : List Profile) (r) (s) (w) (b) :
    mergeUsers ps r none s w b = mergeUsers ps r (some []) s w b := by
  unfold mergeUsers
  apply List.map_congr_left
  intro p _
  simp

/-- Helper: a null social-accounts result merges exactly like an empty one. -/
theorem mergeUsers_socials_none (ps : List Profile) (r) (c) (w) (b) :
    mergeUsers ps r c none w b = mergeUsers ps r c (some []) w b := by
  unfold mergeUsers
  apply List.map_congr_left
  intro p _
  simp

/-- Helper: a null wallets result merges exactly like an empty one. -/
theorem mergeUsers_wallets_none (ps : List Profile) (r) (c) (s) (b) :
    mergeUsers ps r c s none b = mergeUsers ps r c s (some []) b := by
  unfold mergeUsers
  apply List.map_congr_left
  intro p _
  simp

/-- Helper: a null bans result merges exactly like an empty one. -/
theorem mergeUsers_bans_none (ps : List Profile) (r) (c) (s) (w) :
    mergeUsers ps r c s w none = mergeUsers ps r c s w (some []) := by
  unfold mergeUsers
  apply List.map_congr_left
  intro p _
  simp

/-- C3: when the session and profile query succeed, the fetch returns a
merged list whatever the satellite results are (it never aborts on a
satellite failure), a failed (null) satellite result produces exactly the
same value as a genuinely empty one, and every returned record shows the
failed satellite as the empty array (absent `ban_info` for bans). -/
theorem queryFn_satellite_failure_degrades (session : Bool)
    (profilesR : Except DbError (Option (List Profile))) (ps : List Profile)
    (roles : Option (List RoleRow)) (credits : Option (List CreditRow))
    (socials : Option (List SocialRow)) (wallets : Option (List WalletRow))
    (bans : Option (List BanRow))
    (hs : session = true) (hp : profilesR = Except.ok (some ps)) :
    (∃ users, (queryFn ⟨session, profilesR, roles, credits, socials, wallets, bans⟩).1
        = Except.ok users) ∧
    (queryFn ⟨session, profilesR, none, credits, socials, wallets, bans⟩).1
      = (queryFn ⟨session, profilesR, some [], credits, socials, wallets, bans⟩).1 ∧
    (queryFn ⟨session, profilesR, roles, none, socials, wallets, bans⟩).1
      = (queryFn ⟨session, profilesR, roles, some [], socials, wallets, bans⟩).1 ∧
    (queryFn ⟨session, profilesR, roles, credits, none, wallets, bans⟩).1
      = (queryFn ⟨session, profilesR, roles, credits, some [], wallets, bans⟩).1 ∧
    (queryFn ⟨session, profilesR, roles, credits, socials, none, bans⟩).1
      = (queryFn ⟨session, profilesR, roles, credits, socials, some [], bans⟩).1 ∧
    (queryFn ⟨session, profilesR, roles, credits, socials, wallets, none⟩).1
      = (queryFn ⟨session, profilesR, roles, credits, socials, wallets, some []⟩).1 ∧
    (∀ users, (queryFn ⟨session, profilesR, none, credits, socials, wallets, bans⟩).1
        = Except.ok users → ∀ u ∈ users, u.user_roles = []) ∧
    (∀ users, (queryFn ⟨session, profilesR, roles, none, socials, wallets, bans⟩).1
        = Except.ok users → ∀ u ∈ users, u.user_credits = []) ∧
    (∀ users, (queryFn ⟨session, profilesR, roles, credits, none, wallets, bans⟩).1
        = Except.ok users → ∀ u ∈ users, u.social_accounts = []) ∧
    (∀ users, (queryFn ⟨session, profilesR, roles, credits, socials, none, bans⟩).1
        = Except.ok users → ∀ u ∈ users, u.wallets = []) ∧
    (∀ users, (queryFn ⟨session, profilesR, roles, credits, socials, wallets, none⟩).1
        = Except.ok users → ∀ u ∈ users, u.ban_info = none) := by
  subst hs
  subst hp
  have hq : ∀ (r : Option (List RoleRow)) (c : Option (List CreditRow))
      (s : Option (List SocialRow)) (w : Option (List WalletRow))
      (b : Option (List BanRow)),
      (queryFn ⟨true, Except.ok (some ps), r, c, s, w, b⟩).1
        = Except.ok (if ps.isEmpty then [] else mergeUsers ps r c s w b) := by
    intro r c s w b
    unfold queryFn
    by_cases hps : ps.isEmpty <;> simp [hps]
  have hmem : ∀ (r : Option (List RoleRow)) (c : Option (List CreditRow))
      (s : Option (List SocialRow)) (w : Option (List WalletRow))
      (b : Option (List BanRow)) (u : MergedUser),
      u ∈ mergeUsers ps r c s w b → ∃ p, u =
        { profile := p
          user_roles := match r with
                        | some rows => rows.filter (fun x => x.user_id == p.id)
                        | none => []
          user_credits := match c with
                          | some rows => rows.filter (fun x => x.user_id == p.id)
                          | none => []
          social_accounts := match s with
                             | some rows => rows.filter (fun x => x.user_id == p.id)
                             | none => []
          wallets := match w with
                     | some rows => rows.filter (fun x => x.user_id == p.id)
                     | none => []
          ban_info := match b with
                      | some rows => rows.find? (fun x => x.user_id == p.id)
                      | none => none } := by
    intro r c s w b u hu
    unfold mergeUsers at hu
    rcases List.mem_map.mp hu with ⟨p, _, hpu⟩
    exact ⟨p, hpu.symm⟩
  refine ⟨⟨_, hq roles credits socials wallets bans⟩, ?_, ?_, ?_, ?_, ?_, ?_, ?_, ?_, ?_, ?_⟩
  · rw [hq, hq, mergeUsers_roles_none]
  · rw [hq, hq, mergeUsers_credits_none]
  · rw [hq, hq, mergeUsers_socials_none]
  · rw [hq, hq, mergeUsers_wallets_none]
  · rw [hq, hq, mergeUsers_bans_none]
  · intro users h u hu
    rw [hq] at h
    have husers := Except.ok.inj h
    subst husers
    by_cases hps : ps.isEmpty = true
    · rw [if_pos hps] at hu
      exact absurd hu (by simp)
    · rw [if_neg hps] at hu
      rcases hmem _ _ _ _ _ u hu with ⟨p, hpu⟩
      rw [hpu]
  · intro users h u hu
    rw [hq] at h
    have husers := Except.ok.inj h
    subst husers
    by_cases hps : ps.isEmpty = true
    · rw [if_pos hps] at hu
      exact absurd hu (by simp)
    · rw [if_neg hps] at hu
      rcases hmem _ _ _ _ _ u hu with ⟨p, hpu⟩
      rw [hpu]
  · intro users h u hu
    rw [hq] at h
    have husers := Except.ok.inj h
    subst husers
    by_cases hps : ps.isEmpty = true
    · rw [if_pos hps] at hu
      exact absurd hu (by simp)
    · rw [if_neg hps] at hu
      rcases hmem _ _ _ _ _ u hu with ⟨p, hpu⟩
      rw [hpu]
  · intro users h u hu
    rw [hq] at h
    have husers := Except.ok.inj h
    subst husers
    by_cases hps : ps.isEmpty = true
    · rw [if_pos hps] at hu
      exact absurd hu (by simp)
    · rw [if_neg hps] at hu
      rcases hmem _ _ _ _ _ u hu with ⟨p, hpu⟩
      rw [hpu]
  · intro users h u hu
    rw [hq] at h
    have husers := Except.ok.inj h
    subst husers
    by_cases hps : ps.isEmpty = true
    · rw [if_pos hps] at hu
      exact absurd hu (by simp)
    · rw [if_neg hps] at hu
      rcases hmem _ _ _ _ _ u hu with ⟨p, hpu⟩
      rw [hpu]

/-- Witness for C3 at a concrete environment with one profile: a failed
roles query yields the same fetch value as an empty roles result. -/
theorem queryFn_satellite_failure_degrades_witness :
    (queryFn ⟨true, Except.ok (some [⟨"1", none, none, "t"⟩]), none, some [],
        some [], some [], some []⟩).1
      = (queryFn ⟨true, Except.ok (some [⟨"1", none, none, "t"⟩]), some [],
          some [], some [], some [], some []⟩).1 :=
  (queryFn_satellite_failure_degrades true (Except.ok (some [⟨"1", none, none, "t"⟩]))
    [⟨"1", none, none, "t"⟩] (some []) (some []) (some []) (some []) (some [])
    rfl rfl).2.1

/-- C4: for each of the four mutations, with a session and (for ban) a
non-self target: a successful remote write produces exactly the write, the
invalidation of the `['adminUsers']` key and the success toast; a failed
remote write produces exactly the write and a destructive toast carrying
the remote message or the operation's fixed fallback, with no invalidation;
and the invalidated key prefix-matches the directory cache key of every
search term. -/
theorem mutations_invalidate_and_notify (session : Bool)
    (currentUser : Option String) (dbError : Option (Option String))
    (userId reason : String) (hs : session = true)
    (hself : isSelfBan currentUser userId = false) :
    (dbError = none →
      runMakeAdminMutation ⟨session, currentUser, dbError⟩ userId
        = [Effect.upsertRole userId "admin", Effect.invalidate ["adminUsers"],
           Effect.toast ⟨"Success", "User has been made an admin.", false⟩] ∧
      runRemoveAdminMutation ⟨session, currentUser, dbError⟩ userId
        = [Effect.deleteRole userId "admin", Effect.invalidate ["adminUsers"],
           Effect.toast ⟨"Success", "Admin privileges removed.", false⟩] ∧
      runBanUserMutation ⟨session, currentUser, dbError⟩ userId reason
        = [Effect.insertBan userId currentUser
             (if reason = "" then "No reason provided" else reason) true,
           Effect.invalidate ["adminUsers"],
           Effect.toast ⟨"Success", "User has been banned.", false⟩] ∧
      runUnbanUserMutation ⟨session, currentUser, dbError⟩ userId
        = [Effect.updateBanInactive userId, Effect.invalidate ["adminUsers"],
           Effect.toast ⟨"Success", "User has been unbanned.", false⟩]) ∧
    (∀ msg, dbError = some msg →
      runMakeAdminMutation ⟨session, currentUser, dbError⟩ userId
        = [Effect.upsertRole userId "admin",
           Effect.toast ⟨"Error", errorDescription msg "Failed to make user admin.", true⟩] ∧
      runRemoveAdminMutation ⟨session, currentUser, dbError⟩ userId
        = [Effect.deleteRole userId "admin",
           Effect.toast ⟨"Error", errorDescription msg "Failed to remove admin privileges.", true⟩] ∧
      runBanUserMutation ⟨session, currentUser, dbError⟩ userId reason
        = [Effect.insertBan userId currentUser
             (if reason = "" then "No reason provided" else reason) true,
           Effect.toast ⟨"Error", errorDescription msg "Failed to ban user.", true⟩] ∧
      runUnbanUserMutation ⟨session, currentUser, dbError⟩ userId
        = [Effect.updateBanInactive userId,
           Effect.toast ⟨"Error", errorDescription msg "Failed to unban user.", true⟩]) ∧
    (∀ term, invalidationMatches ["adminUsers"] (adminUsersKey term) = true) := by
  subst hs
  refine ⟨?_, ?_, ?_⟩
  · intro hdb
    subst hdb
    refine ⟨?_, ?_, ?_, ?_⟩
    · simp [runMakeAdminMutation, runMutation, makeAdminMutationFn]
    · simp [runRemoveAdminMutation, runMutation, removeAdminMutationFn]
    · simp [runBanUserMutation, runMutation, banUserMutationFn, hself]
    · simp [runUnbanUserMutation, runMutation, unbanUserMutationFn]
  · intro msg hdb
    subst hdb
    refine ⟨?_, ?_, ?_, ?_⟩
    · simp [runMakeAdminMutation, runMutation, makeAdminMutationFn]
    · simp [runRemoveAdminMutation, runMutation, removeAdminMutationFn]
    · simp [runBanUserMutation, runMutation, banUserMutationFn, hself]
    · simp [runUnbanUserMutation, runMutation, unbanUserMutationFn]
  · intro term
    simp [invalidationMatches, adminUsersKey, List.isPrefixOf]

/-- Witness for C4: the success path of promote-to-admin at a concrete
environment, plus the invalidated key matching the cache key of a concrete
search term. -/
theorem mutations_invalidate_and_notify_witness :
    runMakeAdminMutation ⟨true, some "a1", none⟩ "u2"
      = [Effect.upsertRole "u2" "admin", Effect.invalidate ["adminUsers"],
         Effect.toast ⟨"Success", "User has been made an admin.", false⟩] ∧
    invalidationMatches ["adminUsers"] (adminUsersKey "alice") = true :=
  ⟨((mutations_invalidate_and_notify true (some "a1") none "u2" "" rfl rfl).1 rfl).1,
    (mutations_invalidate_and_notify true (some "a1") none "u2" "" rfl rfl).2.2 "alice"⟩

/-- C5: with a session and a null or empty profile result, the fetch
returns the empty list and issues no satellite query — the call trace is
exactly the profile query. -/
theorem queryFn_empty_profiles (env : FetchEnv) (hs : env.session = true)
    (hp : env.profiles = Except.ok none ∨ env.profiles = Except.ok (some [])) :
    queryFn env = (Except.ok [], [QueryCall.profilesQ]) := by
  unfold queryFn
  rcases hp with hp | hp <;> rw [hs, hp] <;> simp

/-- Witness for C5 at a concrete environment with an empty profile list. -/
theorem queryFn_empty_profiles_witness :
    queryFn { session := true, profiles := Except.ok (some []), roles := none,
              credits := none, socials := none, wallets := none, bans := none }
      = (Except.ok [], [QueryCall.profilesQ]) :=
  queryFn_empty_profiles _ rfl (Or.inr rfl)

/-- C2: a ban whose target equals the caller's id rejects with the
self-ban error and an empty write trace (no insert issued), and the full
mutation run produces only the destructive error toast — no cache
invalidation and no success notification. -/
theorem banUserMutation_self_ban (env : MutEnv) (userId reason : String)
    (hs : env.session = true) (hself : env.currentUser = some userId) :
    banUserMutationFn env userId reason
        = (Except.error (some "You cannot ban yourself"), []) ∧
    runBanUserMutation env userId reason
        = [Effect.toast ⟨"Error", "You cannot ban yourself", true⟩] := by
  have hguard : isSelfBan env.currentUser userId = true := by
    rw [hself]; simp [isSelfBan]
  constructor
  · unfold banUserMutationFn
    rw [hs, hguard]
    simp
  · unfold runBanUserMutation runMutation
    unfold banUserMutationFn
    rw [hs, hguard]
    simp [errorDescription]

/-- Witness for C2 at a concrete environment whose caller is the target. -/
theorem banUserMutation_self_ban_witness :
    banUserMutationFn { session := true, currentUser := some "u1", dbError := none }
        "u1" "spam"
        = (Except.error (some "You cannot ban yourself"), []) ∧
    runBanUserMutation { session := true, currentUser := some "u1", dbError := none }
        "u1" "spam"
        = [Effect.toast ⟨"Error", "You cannot ban yourself", true⟩] :=
  banUserMutation_self_ban _ "u1" "spam" rfl rfl

/-- C10: with a session but no known caller, the self-ban comparison is
false for every target id, so the guard never rejects, and the insert is
issued with `banned_by` absent (`none`). -/
theorem banUserMutation_unknown_caller (env : MutEnv) (userId reason : String)
    (hs : env.session = true) (hu : env.currentUser = none) :
    isSelfBan env.currentUser userId = false ∧
    (banUserMutationFn env userId reason).2
        = [Effect.insertBan userId none
            (if reason = "" then "No reason provided" else reason) true] ∧
    (env.dbError = none → (banUserMutationFn env userId reason).1 = Except.ok ()) := by
  have hguard : isSelfBan env.currentUser userId = false := by
    rw [hu]; rfl
  refine ⟨hguard, ?_, ?_⟩
  · unfold banUserMutationFn
    rw [hs, hguard, hu]
    cases h : env.dbError <;> simp
  · intro hdb
    unfold banUserMutationFn
    rw [hs, hguard, hdb]
    simp

/-- Witness for C10 at a concrete environment with no caller identity. -/
theorem banUserMutation_unknown_caller_witness :
    isSelfBan (MutEnv.currentUser { session := true, currentUser := none, dbError := none }) "u1" = false ∧
    (banUserMutationFn { session := true, currentUser := none, dbError := none } "u1" "").2
        = [Effect.insertBan "u1" none
            (if "" = "" then "No reason provided" else "") true] ∧
    (MutEnv.dbError { session := true, currentUser := none, dbError := none } = none →
      (banUserMutationFn { session := true, currentUser := none, dbError := none } "u1" "").1
        = Except.ok ()) :=
  banUserMutation_unknown_caller _ "u1" "" rfl rfl

end UserMgmt
